import Mathlib

/-!
Verification development for the LongCat video-generator Streamlit app
(`src/app.py`).  The app collects form parameters, builds a flat arguments
dictionary, performs one blocking call to the fal.ai API, and extracts a
video URL from the loosely structured response.

The embedding below models, faithfully to the Python source:
  * the JSON-like response values (`JValue`) and Python dict lookup;
  * the response-URL extraction logic of `generate_text_to_video`
    (lines 108-117) and `generate_image_to_video` (lines 164-172);
  * the request-arguments construction (lines 93-103 and 153-162);
  * the credential initializer `get_client` (lines 20-35);
  * the submission handler inside `main` (lines 244-283), with the remote
    service abstracted as an oracle and the network calls it performs
    recorded as an event trace.
-/

namespace LongCatApp

/-- JSON-like values as returned by the fal API: the extraction code only
distinguishes dictionaries (with string keys) from everything else, so all
non-dict leaves are `str`/`num`/`null`. -/
inductive JValue where
  | null : JValue
  | str (s : String) : JValue
  | num (n : Int) : JValue
  | dict (entries : List (String × JValue)) : JValue

/-- Python `d.get(k)` / `d[k]` on a dict modelled as an association list
(first match wins; real dicts have unique keys, for which this agrees). -/
def lookupKey {α : Type} : List (String × α) → String → Option α
  | [], _ => none
  | (k, v) :: rest, key => if k = key then some v else lookupKey rest key

/-- Python `k in d`. -/
def containsKey {α : Type} (d : List (String × α)) (k : String) : Bool :=
  (lookupKey d k).isSome

/-- The response-URL extraction of `generate_text_to_video`
(src/app.py lines 108-117):

    video = result.get("video")
    if isinstance(video, dict) and "url" in video:
        return video["url"]
    data = result.get("data")
    if isinstance(data, dict):
        video_field = data.get("video")
        if isinstance(video_field, dict) and "url" in video_field:
            return video_field["url"]
    raise RuntimeError("Unexpected response format from fal API: missing video URL")

A raised `RuntimeError` is modelled as `Except.error` carrying the message. -/
def extract_video_url_t2v (result : List (String × JValue)) : Except String JValue :=
  let topLevel : Option JValue :=
    match lookupKey result "video" with
    | some (JValue.dict video) => lookupKey video "url"
    | _ => none
  match topLevel with
  | some u => Except.ok u
  | none =>
    let nested : Option JValue :=
      match lookupKey result "data" with
      | some (JValue.dict data) =>
        match lookupKey data "video" with
        | some (JValue.dict video_field) => lookupKey video_field "url"
        | _ => none
      | _ => none
    match nested with
    | some u => Except.ok u
    | none => Except.error "Unexpected response format from fal API: missing video URL"

/-- The response-URL extraction of `generate_image_to_video`
(src/app.py lines 164-172); the Python code is line-for-line identical to
the text-to-video extraction but is a distinct code block, so it gets a
distinct definition here. -/
def extract_video_url_i2v (result : List (String × JValue)) : Except String JValue :=
  let topLevel : Option JValue :=
    match lookupKey result "video" with
    | some (JValue.dict video) => lookupKey video "url"
    | _ => none
  match topLevel with
  | some u => Except.ok u
  | none =>
    let nested : Option JValue :=
      match lookupKey result "data" with
      | some (JValue.dict data) =>
        match lookupKey data "video" with
        | some (JValue.dict video_field) => lookupKey video_field "url"
        | _ => none
      | _ => none
    match nested with
    | some u => Except.ok u
    | none => Except.error "Unexpected response format from fal API: missing video URL"

/-- Values placed in the request-arguments dictionary: strings, Python ints,
and the guidance-scale slider value (a float that is only ever passed through
unmodified; the slider yields multiples of 0.5, represented exactly as a
rational). -/
inductive ArgValue where
  | str (s : String) : ArgValue
  | int (n : Int) : ArgValue
  | float (q : Rat) : ArgValue

/-- The arguments dictionary built by `generate_text_to_video`
(src/app.py lines 93-103).  Python dicts preserve insertion order, so the
dictionary is an association list in insertion order; `if negative_prompt:`
is string truthiness (absent or empty means falsy). -/
def text_to_video_arguments (prompt : String) (num_frames : Int)
    (guidance_scale : Rat) (num_inference_steps : Int)
    (negative_prompt : Option String) : List (String × ArgValue) :=
  let arguments : List (String × ArgValue) :=
    [("prompt", ArgValue.str prompt),
     ("num_frames", ArgValue.int num_frames),
     ("guidance_scale", ArgValue.float guidance_scale),
     ("num_inference_steps", ArgValue.int num_inference_steps)]
  let arguments :=
    match negative_prompt with
    | some s => if s = "" then arguments
                else arguments ++ [("negative_prompt", ArgValue.str s)]
    | none => arguments
  arguments ++ [("fps", ArgValue.int 30)]

/-- The arguments dictionary built by `generate_image_to_video`
(src/app.py lines 153-162): same fields plus the resolved `image_url`
first. -/
def image_to_video_arguments (image_url prompt : String) (num_frames : Int)
    (guidance_scale : Rat) (num_inference_steps : Int)
    (negative_prompt : Option String) : List (String × ArgValue) :=
  let arguments : List (String × ArgValue) :=
    [("image_url", ArgValue.str image_url),
     ("prompt", ArgValue.str prompt),
     ("num_frames", ArgValue.int num_frames),
     ("guidance_scale", ArgValue.float guidance_scale),
     ("num_inference_steps", ArgValue.int num_inference_steps)]
  let arguments :=
    match negative_prompt with
    | some s => if s = "" then arguments
                else arguments ++ [("negative_prompt", ArgValue.str s)]
    | none => arguments
  arguments ++ [("fps", ArgValue.int 30)]

/-- Model of `generate_text_to_video` (src/app.py lines 62-117) with the blocking
`client.subscribe` call abstracted as an oracle mapping an endpoint and the
arguments dictionary to the response dictionary. -/
def generate_text_to_video
    (subscribeOracle : String → List (String × ArgValue) → List (String × JValue))
    (prompt : String) (num_frames : Int) (guidance_scale : Rat)
    (num_inference_steps : Int) (negative_prompt : Option String) :
    Except String JValue :=
  let arguments := text_to_video_arguments prompt num_frames guidance_scale
    num_inference_steps negative_prompt
  let result := subscribeOracle "fal-ai/longcat-video/text-to-video/720p" arguments
  extract_video_url_t2v result

/-- Model of `generate_image_to_video` (src/app.py lines 120-172), abstracted the
same way. -/
def generate_image_to_video
    (subscribeOracle : String → List (String × ArgValue) → List (String × JValue))
    (image_url prompt : String) (num_frames : Int) (guidance_scale : Rat)
    (num_inference_steps : Int) (negative_prompt : Option String) :
    Except String JValue :=
  let arguments := image_to_video_arguments image_url prompt num_frames
    guidance_scale num_inference_steps negative_prompt
  let result := subscribeOracle "fal-ai/longcat-video/image-to-video/720p" arguments
  extract_video_url_i2v result

/-- The fixed frame rate set in `main` (src/app.py line 224: `fps = 30`). -/
def fps : Int := 30

/-- Line 225 of src/app.py: `num_frames = int(duration_seconds * fps)`; the
slider value is already an `int`, so `int()` is the identity. -/
def computed_num_frames (duration_seconds : Int) : Int :=
  duration_seconds * fps

/-- The vendor client object; the extraction and orchestration code never
inspects it beyond holding the key it was constructed with. -/
structure FalClientModel where
  api_key : String

/-- Model of `get_client` (src/app.py lines 20-35).  The process environment is a
partial map from variable names to values; `os.getenv` returns `none` when
unset.  `if not api_key:` rejects both an unset and an empty variable.
Construction `FalClient(api_key)` may throw; the `try/except` turning any
exception into `None` is modelled by letting the constructor itself be a
partial oracle. -/
def get_client (env : String → Option String)
    (falClientConstructor : String → Option FalClientModel) :
    Option FalClientModel :=
  match env "FAL_KEY" with
  | none => none
  | some api_key =>
    if api_key = "" then none
    else falClientConstructor api_key

/-- The two values of the mode selector (src/app.py line 203). -/
inductive Mode where
  | textToVideo : Mode
  | imageToVideo : Mode

/-- The form inputs collected by `main` before the button press
(src/app.py lines 203-241).  `st.text_area`/`st.text_input` always return a
string (empty when untouched); the file uploader returns `None` or the
uploaded file, whose `.read()` yields raw bytes. -/
structure UIInputs where
  mode : Mode
  prompt : String
  negative_prompt : String
  duration_seconds : Int
  guidance_scale : Rat
  num_inference_steps : Int
  image_file : Option (List UInt8)

/-- The network calls the handler can perform, recorded in order. -/
inductive NetEvent where
  | upload (image_bytes : List UInt8) : NetEvent
  | subscribe (endpoint : String) (arguments : List (String × ArgValue)) : NetEvent

/-- What the handler renders at the end of one button press. -/
inductive Outcome where
  | warned (message : String) : Outcome
  | success (video_url : JValue) : Outcome
  | failed (message : String) : Outcome

/-- The remote service seen by one button press: `upload_file` maps the
uploaded bytes to a hosted URL (the temp-file plumbing of `upload_image`,
src/app.py lines 38-59, is filesystem I/O around this single call);
`subscribe` maps an endpoint and arguments to a response dictionary. -/
structure Remote where
  uploadFile : List UInt8 → String
  subscribe : String → List (String × ArgValue) → List (String × JValue)

/-- The submission handler: the body of `if generate_button:` in `main`
(src/app.py lines 244-283).  Returns the list of network calls made, in
order, together with the rendered outcome.

  * `if not prompt:` warns and returns — string truthiness, so only the
    empty string is rejected;
  * text mode calls `generate_text_to_video`; image mode first checks
    `image_file is None` (warn and return), then uploads and calls
    `generate_image_to_video`;
  * `negative_prompt if negative_prompt else None` converts the empty
    string to `None`;
  * the `try/except` boundary renders `Generation failed: {e}` on the
    `RuntimeError` raised by the extraction. -/
def handle_generate (remote : Remote) (ui : UIInputs) : List NetEvent × Outcome :=
  if ui.prompt = "" then
    ([], Outcome.warned "Please enter a prompt to guide the video generation.")
  else
    let num_frames := computed_num_frames ui.duration_seconds
    let neg : Option String :=
      if ui.negative_prompt = "" then none else some ui.negative_prompt
    match ui.mode with
    | Mode.textToVideo =>
      let arguments := text_to_video_arguments ui.prompt num_frames
        ui.guidance_scale ui.num_inference_steps neg
      let events := [NetEvent.subscribe "fal-ai/longcat-video/text-to-video/720p" arguments]
      match generate_text_to_video remote.subscribe ui.prompt num_frames
          ui.guidance_scale ui.num_inference_steps neg with
      | Except.ok u => (events, Outcome.success u)
      | Except.error e => (events, Outcome.failed ("Generation failed: " ++ e))
    | Mode.imageToVideo =>
      match ui.image_file with
      | none => ([], Outcome.warned "Please upload an image to animate.")
      | some image_bytes =>
        let image_url := remote.uploadFile image_bytes
        let arguments := image_to_video_arguments image_url ui.prompt num_frames
          ui.guidance_scale ui.num_inference_steps neg
        let events := [NetEvent.upload image_bytes,
          NetEvent.subscribe "fal-ai/longcat-video/image-to-video/720p" arguments]
        match generate_image_to_video remote.subscribe image_url ui.prompt num_frames
            ui.guidance_scale ui.num_inference_steps neg with
        | Except.ok u => (events, Outcome.success u)
        | Except.error e => (events, Outcome.failed ("Generation failed: " ++ e))

/-- Result of one `main` run, from client initialization on. -/
inductive MainOutcome where
  | configError (message : String) : MainOutcome
  | ran (outcome : Outcome) : MainOutcome

/-- Model of `main` from client initialization through the button handler
(src/app.py lines 194-283): when `get_client()` yields `None` the app
renders a remediation error and returns before building the form, so no
network call is ever attempted; otherwise the button press runs
`handle_generate`. -/
def main_model (env : String → Option String)
    (falClientConstructor : String → Option FalClientModel)
    (remote : Remote) (ui : UIInputs) : List NetEvent × MainOutcome :=
  match get_client env falClientConstructor with
  | none =>
    ([], MainOutcome.configError
      "Fal API key not found.  Set the `FAL_KEY` environment variable in your deployment environment.  You can obtain a key by signing up at fal.ai.")
  | some _ =>
    let r := handle_generate remote ui
    (r.1, MainOutcome.ran r.2)

/-- Modelled from the spec: the repository is described as holding two
near-duplicate variants, but only one (`src/app.py`) is present under the
sources.  Per the spec (sections 6 and 9), the missing variant checks one
environment variable for presence but reads a differently-named one — the
names differ by a single character, an E-vs-K typo — when constructing the
client.  The spec does not give the concrete names, only that the second
variant uses an OpenAI-style key; the names below realise the described
one-character E/K mismatch. -/
def variant2_presence_variable : String := "OPENAI_API_KEY"

/-- Modelled from the spec: the variable actually read by the missing
variant when constructing its client; see `variant2_presence_variable`. -/
def variant2_read_variable : String := "OPENAI_API_EEY"

/-- Modelled from the spec: the credential initializer of the missing variant.
It tests `variant2_presence_variable` for presence (and truthiness), then
constructs the client from the value of `variant2_read_variable`; a missing
read variable yields an empty key (Python `os.getenv` returning `None`
passed to a constructor is modelled as the absent-value default). -/
def get_client_variant2 (env : String → Option String) :
    Option FalClientModel :=
  match env variant2_presence_variable with
  | none => none
  | some api_key =>
    if api_key = "" then none
    else some { api_key := (env variant2_read_variable).getD "" }

/-! ## Helper lemmas about the extractors -/

theorem extract_i2v_eq_t2v (result : List (String × JValue)) :
    extract_video_url_i2v result = extract_video_url_t2v result := rfl

theorem extract_t2v_top_level (result video : List (String × JValue)) (U : JValue)
    (hvideo : lookupKey result "video" = some (JValue.dict video))
    (hurl : lookupKey video "url" = some U) :
    extract_video_url_t2v result = Except.ok U := by
  simp [extract_video_url_t2v, hvideo, hurl]

theorem extract_t2v_nested (result data video : List (String × JValue)) (U : JValue)
    (htop : ∀ v, lookupKey result "video" = some (JValue.dict v) →
      lookupKey v "url" = none)
    (hdata : lookupKey result "data" = some (JValue.dict data))
    (hvideo : lookupKey data "video" = some (JValue.dict video))
    (hurl : lookupKey video "url" = some U) :
    extract_video_url_t2v result = Except.ok U := by
  cases hv : lookupKey result "video" with
  | none => simp [extract_video_url_t2v, hv, hdata, hvideo, hurl]
  | some jv =>
    cases jv with
    | null => simp [extract_video_url_t2v, hv, hdata, hvideo, hurl]
    | str s => simp [extract_video_url_t2v, hv, hdata, hvideo, hurl]
    | num n => simp [extract_video_url_t2v, hv, hdata, hvideo, hurl]
    | dict v => simp [extract_video_url_t2v, hv, htop v hv, hdata, hvideo, hurl]

theorem extract_t2v_error (result : List (String × JValue))
    (htop : ∀ v, lookupKey result "video" = some (JValue.dict v) →
      lookupKey v "url" = none)
    (hnested : ∀ d v, lookupKey result "data" = some (JValue.dict d) →
      lookupKey d "video" = some (JValue.dict v) → lookupKey v "url" = none) :
    extract_video_url_t2v result =
      Except.error "Unexpected response format from fal API: missing video URL" := by
  have hstep : ∀ d, lookupKey result "data" = some (JValue.dict d) →
      (match lookupKey d "video" with
       | some (JValue.dict video_field) => lookupKey video_field "url"
       | _ => (none : Option JValue)) = none := by
    intro d hd
    cases hv : lookupKey d "video" with
    | none => rfl
    | some jv =>
      cases jv with
      | null => rfl
      | str s => rfl
      | num n => rfl
      | dict v => simpa using hnested d v hd hv
  cases hv : lookupKey result "video" with
  | none =>
    cases hd : lookupKey result "data" with
    | none => simp [extract_video_url_t2v, hv, hd]
    | some jd =>
      cases jd with
      | null => simp [extract_video_url_t2v, hv, hd]
      | str s => simp [extract_video_url_t2v, hv, hd]
      | num n => simp [extract_video_url_t2v, hv, hd]
      | dict d => simp [extract_video_url_t2v, hv, hd, hstep d hd]
  | some jv =>
    cases jv with
    | null =>
      cases hd : lookupKey result "data" with
      | none => simp [extract_video_url_t2v, hv, hd]
      | some jd =>
        cases jd with
        | null => simp [extract_video_url_t2v, hv, hd]
        | str s => simp [extract_video_url_t2v, hv, hd]
        | num n => simp [extract_video_url_t2v, hv, hd]
        | dict d => simp [extract_video_url_t2v, hv, hd, hstep d hd]
    | str s =>
      cases hd : lookupKey result "data" with
      | none => simp [extract_video_url_t2v, hv, hd]
      | some jd =>
        cases jd with
        | null => simp [extract_video_url_t2v, hv, hd]
        | str t => simp [extract_video_url_t2v, hv, hd]
        | num n => simp [extract_video_url_t2v, hv, hd]
        | dict d => simp [extract_video_url_t2v, hv, hd, hstep d hd]
    | num n =>
      cases hd : lookupKey result "data" with
      | none => simp [extract_video_url_t2v, hv, hd]
      | some jd =>
        cases jd with
        | null => simp [extract_video_url_t2v, hv, hd]
        | str s => simp [extract_video_url_t2v, hv, hd]
        | num m => simp [extract_video_url_t2v, hv, hd]
        | dict d => simp [extract_video_url_t2v, hv, hd, hstep d hd]
    | dict v =>
      cases hd : lookupKey result "data" with
      | none => simp [extract_video_url_t2v, hv, htop v hv, hd]
      | some jd =>
        cases jd with
        | null => simp [extract_video_url_t2v, hv, htop v hv, hd]
        | str s => simp [extract_video_url_t2v, hv, htop v hv, hd]
        | num n => simp [extract_video_url_t2v, hv, htop v hv, hd]
        | dict d => simp [extract_video_url_t2v, hv, htop v hv, hd, hstep d hd]

/-! ## Claims about the response extractors -/

/-- C1: whenever the response dictionary has a top-level "video" field that
is a dictionary containing a "url" key with value `U`, both the
text-to-video and the image-to-video extractor return exactly `U`; since
nothing is assumed about a "data" field, the top-level shape takes
precedence even when the nested "data"/"video"/"url" shape is also
present. -/
theorem extractor_top_level_url_precedence
    (result video : List (String × JValue)) (U : JValue)
    (hvideo : lookupKey result "video" = some (JValue.dict video))
    (hurl : lookupKey video "url" = some U) :
    extract_video_url_t2v result = Except.ok U ∧
    extract_video_url_i2v result = Except.ok U :=
  ⟨extract_t2v_top_level result video U hvideo hurl,
   (extract_i2v_eq_t2v result).trans
     (extract_t2v_top_level result video U hvideo hurl)⟩

/-- Witness for C1 at a concrete response carrying BOTH shapes with
different URLs: the top-level URL wins. -/
theorem extractor_top_level_url_precedence_witness :
    extract_video_url_t2v
        [("video", JValue.dict [("url", JValue.str "https://a.example/v.mp4")]),
         ("data", JValue.dict
            [("video", JValue.dict [("url", JValue.str "https://b.example/v.mp4")])])]
      = Except.ok (JValue.str "https://a.example/v.mp4") ∧
    extract_video_url_i2v
        [("video", JValue.dict [("url", JValue.str "https://a.example/v.mp4")]),
         ("data", JValue.dict
            [("video", JValue.dict [("url", JValue.str "https://b.example/v.mp4")])])]
      = Except.ok (JValue.str "https://a.example/v.mp4") :=
  extractor_top_level_url_precedence _
    [("url", JValue.str "https://a.example/v.mp4")]
    (JValue.str "https://a.example/v.mp4") rfl rfl

/-- C2: when no top-level "video" dictionary contains "url" but the "data"
field is a dictionary whose "video" field is a dictionary containing "url"
with value `U`, both extractors return exactly `U`. -/
theorem extractor_data_fallback_url
    (result data video : List (String × JValue)) (U : JValue)
    (htop : ∀ v, lookupKey result "video" = some (JValue.dict v) →
      lookupKey v "url" = none)
    (hdata : lookupKey result "data" = some (JValue.dict data))
    (hvideo : lookupKey data "video" = some (JValue.dict video))
    (hurl : lookupKey video "url" = some U) :
    extract_video_url_t2v result = Except.ok U ∧
    extract_video_url_i2v result = Except.ok U :=
  ⟨extract_t2v_nested result data video U htop hdata hvideo hurl,
   (extract_i2v_eq_t2v result).trans
     (extract_t2v_nested result data video U htop hdata hvideo hurl)⟩

/-- Witness for C2 at a concrete response with only the nested shape. -/
theorem extractor_data_fallback_url_witness :
    extract_video_url_t2v
        [("data", JValue.dict
            [("video", JValue.dict [("url", JValue.str "https://c.example/v.mp4")])])]
      = Except.ok (JValue.str "https://c.example/v.mp4") ∧
    extract_video_url_i2v
        [("data", JValue.dict
            [("video", JValue.dict [("url", JValue.str "https://c.example/v.mp4")])])]
      = Except.ok (JValue.str "https://c.example/v.mp4") :=
  extractor_data_fallback_url _
    [("video", JValue.dict [("url", JValue.str "https://c.example/v.mp4")])]
    [("url", JValue.str "https://c.example/v.mp4")]
    (JValue.str "https://c.example/v.mp4")
    (fun _ h => Option.noConfusion h) rfl rfl rfl

/-- C3: when the response matches neither the top-level "video"/"url" shape
nor the nested "data"/"video"/"url" shape, both extractors raise the
"Unexpected response format" error and return no URL. -/
theorem extractor_unexpected_format_error (result : List (String × JValue))
    (htop : ∀ v, lookupKey result "video" = some (JValue.dict v) →
      lookupKey v "url" = none)
    (hnested : ∀ d v, lookupKey result "data" = some (JValue.dict d) →
      lookupKey d "video" = some (JValue.dict v) → lookupKey v "url" = none) :
    extract_video_url_t2v result =
      Except.error "Unexpected response format from fal API: missing video URL" ∧
    extract_video_url_i2v result =
      Except.error "Unexpected response format from fal API: missing video URL" :=
  ⟨extract_t2v_error result htop hnested,
   (extract_i2v_eq_t2v result).trans (extract_t2v_error result htop hnested)⟩

/-- Witness for C3 at a concrete response matching neither shape. -/
theorem extractor_unexpected_format_error_witness :
    extract_video_url_t2v [("status", JValue.str "queued")] =
      Except.error "Unexpected response format from fal API: missing video URL" ∧
    extract_video_url_i2v [("status", JValue.str "queued")] =
      Except.error "Unexpected response format from fal API: missing video URL" :=
  extractor_unexpected_format_error _
    (fun _ h => Option.noConfusion h)
    (fun _ _ h _ => Option.noConfusion h)

/-- C10: the response-extraction logic of `generate_text_to_video` and
`generate_image_to_video` are equal as functions of the response
dictionary: on every response both return the same URL or both raise the
same "unexpected response format" error. -/
theorem extractors_t2v_i2v_agree :
    ∀ result : List (String × JValue),
      extract_video_url_t2v result = extract_video_url_i2v result :=
  fun result => (extract_i2v_eq_t2v result).symm

/-- Shared witness fact for C10: the two extractors agree on a concrete
response. -/
theorem extractors_t2v_i2v_agree_witness :
    extract_video_url_t2v [] = extract_video_url_i2v [] :=
  extractors_t2v_i2v_agree []

/-! ## Claims about validation, parameters and credentials -/

/-- C4 counterexample: the prompt `" "` consists only of whitespace, yet the
submission handler does not reject it — `if not prompt:` tests string
truthiness, and a whitespace-only string is truthy — so the generation
network call is made and the run even succeeds. -/
theorem whitespace_prompt_not_rejected :
    (" ").data.all Char.isWhitespace = true ∧
    (" " : String) ≠ "" ∧
    handle_generate
        { uploadFile := fun _ => "https://fal.media/img.png",
          subscribe := fun _ _ =>
            [("video", JValue.dict [("url", JValue.str "https://a.example/v.mp4")])] }
        { mode := Mode.textToVideo, prompt := " ", negative_prompt := "",
          duration_seconds := 6, guidance_scale := 4, num_inference_steps := 40,
          image_file := none }
      = ([NetEvent.subscribe "fal-ai/longcat-video/text-to-video/720p"
            (text_to_video_arguments " " 180 4 40 none)],
         Outcome.success (JValue.str "https://a.example/v.mp4")) :=
  ⟨by decide, by decide, rfl⟩

/-- C4 (amended): for every prompt equal to the empty string, the submission
handler issues the validation warning and returns with no network call
made; a whitespace-only but non-empty prompt is NOT rejected (see the
counterexample). -/
theorem empty_prompt_rejected_before_network (remote : Remote) (ui : UIInputs)
    (h : ui.prompt = "") :
    handle_generate remote ui
      = ([], Outcome.warned "Please enter a prompt to guide the video generation.") := by
  simp [handle_generate, h]

/-- Witness for the amended C4 at a concrete empty-prompt submission. -/
theorem empty_prompt_rejected_before_network_witness :
    handle_generate
        { uploadFile := fun _ => "https://fal.media/img.png",
          subscribe := fun _ _ => [] }
        { mode := Mode.textToVideo, prompt := "", negative_prompt := "",
          duration_seconds := 6, guidance_scale := 4, num_inference_steps := 40,
          image_file := none }
      = ([], Outcome.warned "Please enter a prompt to guide the video generation.") :=
  empty_prompt_rejected_before_network _ _ rfl

/-- C5: for every slider duration `d` (an integer between 3 and 20), the
computed `num_frames` is `d * 30`, that value is what the text-to-video
arguments dictionary carries under "num_frames", and at `d = 6` the frame
count is 180. -/
theorem num_frames_is_duration_times_fps
    (d : Int) (h3 : 3 ≤ d) (h20 : d ≤ 20)
    (prompt : String) (gs : Rat) (steps : Int) (neg : Option String) :
    computed_num_frames d = d * 30 ∧
    lookupKey (text_to_video_arguments prompt (computed_num_frames d) gs steps neg)
      "num_frames" = some (ArgValue.int (d * 30)) ∧
    computed_num_frames 6 = 180 := by
  refine ⟨rfl, ?_, rfl⟩
  cases neg with
  | none => rfl
  | some s =>
    rcases eq_or_ne s "" with hs | hs
    · subst hs
      rfl
    · simp only [text_to_video_arguments, if_neg hs]
      rfl

/-- Witness for C5 at duration 6. -/
theorem num_frames_is_duration_times_fps_witness :
    computed_num_frames 6 = 6 * 30 ∧
    lookupKey (text_to_video_arguments "a cat" (computed_num_frames 6) 4 40 none)
      "num_frames" = some (ArgValue.int (6 * 30)) ∧
    computed_num_frames 6 = 180 :=
  num_frames_is_duration_times_fps 6 (by decide) (by decide) "a cat" 4 40 none

/-- C6: when the FAL_KEY environment variable is absent, or when client
construction fails, `get_client` returns `None` rather than propagating an
exception, and the orchestrator halts with the remediation message having
made no network call. -/
theorem missing_credential_halts (env : String → Option String)
    (falClientConstructor : String → Option FalClientModel)
    (remote : Remote) (ui : UIInputs)
    (h : env "FAL_KEY" = none ∨
      ∃ k, env "FAL_KEY" = some k ∧ falClientConstructor k = none) :
    get_client env falClientConstructor = none ∧
    main_model env falClientConstructor remote ui
      = ([], MainOutcome.configError
          "Fal API key not found.  Set the `FAL_KEY` environment variable in your deployment environment.  You can obtain a key by signing up at fal.ai.") := by
  have hc : get_client env falClientConstructor = none := by
    rcases h with h | ⟨k, hk, hcons⟩
    · simp [get_client, h]
    · rcases eq_or_ne k "" with hke | hke
      · simp [get_client, hk, hke]
      · simp [get_client, hk, hke, hcons]
  exact ⟨hc, by simp [main_model, hc]⟩

/-- Witness for C6 with an empty environment. -/
theorem missing_credential_halts_witness :
    get_client (fun _ => none) (fun k => some { api_key := k }) = none ∧
    main_model (fun _ => none) (fun k => some { api_key := k })
        { uploadFile := fun _ => "https://fal.media/img.png",
          subscribe := fun _ _ => [] }
        { mode := Mode.textToVideo, prompt := "a cat", negative_prompt := "",
          duration_seconds := 6, guidance_scale := 4, num_inference_steps := 40,
          image_file := none }
      = ([], MainOutcome.configError
          "Fal API key not found.  Set the `FAL_KEY` environment variable in your deployment environment.  You can obtain a key by signing up at fal.ai.") :=
  missing_credential_halts _ _ _ _ (Or.inl rfl)

/-- C7: in image-to-video mode with no image provided, the handler rejects
the submission with a visible warning and makes no upload or generation
network call (an empty prompt is caught even earlier, also with a warning
and no call). -/
theorem missing_image_rejected_before_network (remote : Remote) (ui : UIInputs)
    (hmode : ui.mode = Mode.imageToVideo) (himg : ui.image_file = none) :
    (handle_generate remote ui).1 = [] ∧
    ∃ m, (handle_generate remote ui).2 = Outcome.warned m := by
  by_cases hp : ui.prompt = ""
  · have h1 : handle_generate remote ui
        = ([], Outcome.warned "Please enter a prompt to guide the video generation.") := by
      simp [handle_generate, hp]
    rw [h1]
    exact ⟨rfl, _, rfl⟩
  · have h1 : handle_generate remote ui
        = ([], Outcome.warned "Please upload an image to animate.") := by
      simp [handle_generate, hp, hmode, himg]
    rw [h1]
    exact ⟨rfl, _, rfl⟩

/-- Witness for C7 at a concrete image-mode submission with no image. -/
theorem missing_image_rejected_before_network_witness :
    (handle_generate
        { uploadFile := fun _ => "https://fal.media/img.png",
          subscribe := fun _ _ => [] }
        { mode := Mode.imageToVideo, prompt := "a cat", negative_prompt := "",
          duration_seconds := 6, guidance_scale := 4, num_inference_steps := 40,
          image_file := none }).1 = [] ∧
    ∃ m, (handle_generate
        { uploadFile := fun _ => "https://fal.media/img.png",
          subscribe := fun _ _ => [] }
        { mode := Mode.imageToVideo, prompt := "a cat", negative_prompt := "",
          duration_seconds := 6, guidance_scale := 4, num_inference_steps := 40,
          image_file := none }).2 = Outcome.warned m :=
  missing_image_rejected_before_network _ _ rfl rfl

/-- C8: in the second variant (modelled from the spec, its source being
absent from the repository), the environment variable checked for presence
and the one read during client construction have different names — they
differ by one character, an E-vs-K substitution — and in a concrete
execution where only the presence variable is set, the key of the constructed
client comes from the other, absent variable. -/
theorem variant2_env_name_mismatch :
    variant2_presence_variable ≠ variant2_read_variable ∧
    get_client_variant2
        (fun v => if v = variant2_presence_variable then some "sk-test" else none)
      = some { api_key := "" } :=
  ⟨by decide, rfl⟩

/-- C9: the request arguments dictionary contains "negative_prompt" exactly
when the `negative_prompt` argument is a present, non-empty (truthy)
string, for both the text-to-video and the image-to-video builders; an
empty string is omitted entirely. -/
theorem negative_prompt_included_iff (image_url prompt : String) (nf : Int)
    (gs : Rat) (steps : Int) (neg : Option String) :
    (containsKey (text_to_video_arguments prompt nf gs steps neg)
        "negative_prompt" = true ↔ ∃ s, neg = some s ∧ s ≠ "") ∧
    (containsKey (image_to_video_arguments image_url prompt nf gs steps neg)
        "negative_prompt" = true ↔ ∃ s, neg = some s ∧ s ≠ "") := by
  cases neg with
  | none =>
    refine ⟨⟨fun h => Bool.noConfusion h, ?_⟩, ⟨fun h => Bool.noConfusion h, ?_⟩⟩
    · rintro ⟨s, hs, -⟩
      exact Option.noConfusion hs
    · rintro ⟨s, hs, -⟩
      exact Option.noConfusion hs
  | some s =>
    rcases eq_or_ne s "" with hs | hs
    · subst hs
      refine ⟨⟨fun h => Bool.noConfusion h, ?_⟩, ⟨fun h => Bool.noConfusion h, ?_⟩⟩
      · rintro ⟨t, ht, hne⟩
        injection ht with ht
        exact absurd ht.symm hne
      · rintro ⟨t, ht, hne⟩
        injection ht with ht
        exact absurd ht.symm hne
    · have ht : containsKey (text_to_video_arguments prompt nf gs steps (some s))
          "negative_prompt" = true := by
        simp only [text_to_video_arguments, if_neg hs]
        rfl
      have hi : containsKey
          (image_to_video_arguments image_url prompt nf gs steps (some s))
          "negative_prompt" = true := by
        simp only [image_to_video_arguments, if_neg hs]
        rfl
      exact ⟨⟨fun _ => ⟨s, rfl, hs⟩, fun _ => ht⟩,
             ⟨fun _ => ⟨s, rfl, hs⟩, fun _ => hi⟩⟩

/-- Witness for C9: a non-empty negative prompt is included, the empty one
is omitted. -/
theorem negative_prompt_included_iff_witness :
    containsKey (text_to_video_arguments "a cat" 180 4 40 (some "blurry"))
      "negative_prompt" = true ∧
    containsKey (image_to_video_arguments "https://fal.media/img.png" "a cat"
        180 4 40 none) "negative_prompt" = false :=
  ⟨((negative_prompt_included_iff "https://fal.media/img.png" "a cat" 180 4 40
      (some "blurry")).1).mpr ⟨"blurry", rfl, by decide⟩,
   rfl⟩

end LongCatApp
